import Mathlib

/-
Verification of the DisplayX virtual display driver core against its
specification.

This file gives a shallow embedding of the driver's data model and of the
operations the specification's testable properties talk about:

 * the shared structures of DisplayXFBShared.h (DisplayXFBMode,
   DisplayXFBState, DisplayXFBConfiguration, DisplayXFBCursor);
 * the per-display operations of DisplayXFBFramebuffer.cc
   (userClientSetConfiguration, userClientConnect, userClientDisconnect,
   setCursorState, setCursorImage);
 * the timing emulator DisplayXFBTiming (start / update);
 * the session pool of DisplayXFBDriver.cc (handleOpen / handleIsOpen /
   handleClose).

Modelling conventions:

 * C++ `unsigned` / `uint32_t` values are Nat; where a 32-bit computation can
   wrap (the bytes-per-row / bytes-per-frame expressions, whose inputs are
   client-controlled uint32 fields, and the (uint32_t) cast in
   DisplayXFBTiming::update) the wrap is made explicit with `% 2^32`.
 * The kernel's `clock_get_uptime` value is passed to each operation as an
   explicit `now` argument; `nanoseconds_to_absolutetime` and
   `absolutetime_to_nanoseconds` are modelled as the identity (abstime units
   are nanoseconds), which preserves the microsecond/period structure of
   every computation in DisplayXFBTiming.  64-bit abstime arithmetic cannot
   wrap for any reachable uptime (2^64 ns is several centuries) and is left
   as plain Nat.
 * Mutation through references becomes explicit state passing: each
   operation returns its result code together with the new object value, and
   a list of the side signals it raised (vblank enable/disable, connect
   interrupt, asynchronous notifications) in program order.
 * Null pointer arguments of the C++ entry points have no counterpart in the
   embedding; the corresponding early `if (!ptr) return kIOReturnBadArgument`
   branches are dropped.
-/

namespace DisplayX

/-! ## Global limits (DisplayXFBShared.h) -/

def kDisplayXFBMaxDisplays : Nat := 4
def kDisplayXFBMaxClients : Nat := 8
def kDisplayXFBMinWidth : Nat := 320
def kDisplayXFBMinHeight : Nat := 200
def kDisplayXFBMaxWidth : Nat := 8192
def kDisplayXFBMaxHeight : Nat := 8192
def kDisplayXFBWidthQuantise : Nat := 8
def kDisplayXFBMinRefresh1616 : Nat := 0x00010000
def kDisplayXFBMaxRefresh1616 : Nat := 0x00800000

/-- Frame padding constant of DisplayXFBFramebuffer (DisplayXFBFramebuffer.h). -/
def kFramePadding : Nat := 1024

/-- Modulus of 32-bit unsigned arithmetic. -/
def U32 : Nat := 2 ^ 32

/-! ## Result codes

The IOReturn codes actually produced by the modelled operations. -/

inductive IOResult where
  | Success
  | Error
  | BadArgument
  | Busy
  | NoMemory
  | NotPermitted
  | Unsupported
  | UnsupportedMode
  | Offline
  deriving DecidableEq, Repr

/-- Side signals raised by the framebuffer operations, in program order:
the vblank emulator enable/disable call, the connect interrupt handler fire,
and the asynchronous client notifications. -/
inductive FBEvent where
  | vblankEnable (enable : Bool)
  | connectInterrupt
  | notifyDisplayState
  | notifyCursorState
  | notifyCursorImage
  deriving DecidableEq, Repr

/-! ## DisplayXFBMode -/

structure DisplayXFBMode where
  m_width : Nat
  m_height : Nat
  m_reserved0 : Nat
  m_reserved1 : Nat
  deriving DecidableEq, Repr

namespace DisplayXFBMode

def kDefaultWidth : Nat := 1280
def kDefaultHeight : Nat := 900

/-- Width as stored by `setWidth`: round down to the quantisation unit, then
clamp to the `[kDisplayXFBMinWidth, kDisplayXFBMaxWidth]` bounds. -/
def setWidthValue (w : Nat) : Nat :=
  let w0 := w - (w % kDisplayXFBWidthQuantise)
  if w0 < kDisplayXFBMinWidth then kDisplayXFBMinWidth
  else if w0 > kDisplayXFBMaxWidth then kDisplayXFBMaxWidth
  else w0

/-- Height as stored by `setHeight`: clamp to the bounds. -/
def setHeightValue (h : Nat) : Nat :=
  if h < kDisplayXFBMinHeight then kDisplayXFBMinHeight
  else if h > kDisplayXFBMaxHeight then kDisplayXFBMaxHeight
  else h

/-- DisplayXFBMode::initialise(w, h). -/
def initialise (w h : Nat) : DisplayXFBMode :=
  { m_width := setWidthValue w
    m_height := setHeightValue h
    m_reserved0 := 0
    m_reserved1 := 0 }

/-- DisplayXFBMode::initialise() with the default resolution. -/
def initialiseDefault : DisplayXFBMode := initialise kDefaultWidth kDefaultHeight

def width (m : DisplayXFBMode) : Nat := m.m_width
def height (m : DisplayXFBMode) : Nat := m.m_height

end DisplayXFBMode

/-! ## DisplayXFBState -/

structure DisplayXFBState where
  m_magic : Nat
  m_offset : Nat
  m_pad : Nat
  m_flags : Nat
  m_modeIndex : Nat
  m_reserved0 : Nat
  m_reserved1 : Nat
  m_reserved2 : Nat
  m_mode : DisplayXFBMode
  deriving DecidableEq, Repr

namespace DisplayXFBState

def kMagic : Nat := 0x78464266
/-- Bitwise complement of kMagic in 32 bits, stored by `invalidate`. -/
def kNotMagic : Nat := U32 - 1 - kMagic
def kFlagConnected : Nat := 1

/-- DisplayXFBState::initialise(mode, offset, pad).  Note: the source never
writes `m_modeIndex` here, so the previous value of that field survives. -/
def initialise (s : DisplayXFBState) (m : DisplayXFBMode) (off pd : Nat) :
    DisplayXFBState :=
  { s with
    m_magic := kMagic
    m_offset := off
    m_pad := pd
    m_flags := 0
    m_reserved0 := 0
    m_reserved1 := 0
    m_reserved2 := 0
    m_mode := m }

/-- DisplayXFBState::invalidate().  As in the source, `m_modeIndex` is not
written. -/
def invalidate (s : DisplayXFBState) : DisplayXFBState :=
  { s with
    m_magic := kNotMagic
    m_offset := 0
    m_pad := 0
    m_flags := 0
    m_reserved0 := 0
    m_reserved1 := 0
    m_reserved2 := 0
    m_mode := DisplayXFBMode.initialiseDefault }

/-- The value produced by the default constructor `DisplayXFBState()`, which
calls `invalidate()`.  The constructor leaves `m_modeIndex` uninitialised in
the source (neither the constructor nor `invalidate` assigns it); the model
picks 0, and no modelled computation reads the field before assigning it. -/
def ctorDefault : DisplayXFBState :=
  invalidate
    { m_magic := 0, m_offset := 0, m_pad := 0, m_flags := 0, m_modeIndex := 0
      m_reserved0 := 0, m_reserved1 := 0, m_reserved2 := 0
      m_mode := DisplayXFBMode.initialiseDefault }

def isValid (s : DisplayXFBState) : Bool := kMagic == s.m_magic
def modeIndex (s : DisplayXFBState) : Nat := s.m_modeIndex
def bytesPerPixel (_s : DisplayXFBState) : Nat := 4
def width (s : DisplayXFBState) : Nat := s.m_mode.width
def height (s : DisplayXFBState) : Nat := s.m_mode.height
def offset (s : DisplayXFBState) : Nat := s.m_offset
def pad (s : DisplayXFBState) : Nat := s.m_pad

/-- DisplayXFBState::bytesPerRow: `pad() + (bytesPerPixel()*width())` in
32-bit unsigned arithmetic. -/
def bytesPerRow (s : DisplayXFBState) : Nat :=
  ((s.pad + s.bytesPerPixel * s.width) % U32)

/-- DisplayXFBState::bytesPerFrame: `bytesPerRow()*height()` in 32-bit
unsigned arithmetic. -/
def bytesPerFrame (s : DisplayXFBState) : Nat :=
  ((s.bytesPerRow * s.height) % U32)

def isConnected (s : DisplayXFBState) : Bool :=
  s.m_flags &&& kFlagConnected != 0

/-- DisplayXFBState::setIsConnected.  The complement mask `~kFlagConnected`
is the 32-bit value 0xFFFFFFFE. -/
def setIsConnected (s : DisplayXFBState) (con : Bool) : DisplayXFBState :=
  { s with m_flags :=
      if con then s.m_flags ||| kFlagConnected
      else s.m_flags &&& (U32 - 1 - kFlagConnected) }

/-- DisplayXFBState::setMode. -/
def setMode (s : DisplayXFBState) (m : DisplayXFBMode) (mi : Nat) :
    DisplayXFBState :=
  { s with m_modeIndex := mi, m_mode := m }

end DisplayXFBState

/-! ## DisplayXFBConfiguration -/

structure DisplayXFBConfiguration where
  m_magic : Nat
  m_defaultModeIndex : Nat
  m_modeCount : Nat
  m_refreshRate : Nat
  m_rowPadding : Nat
  m_framePadding : Nat
  m_reserved0 : Nat
  m_reserved1 : Nat
  /-- The 16 bytes of the display name string. -/
  m_name : Fin 16 → Nat
  /-- The fixed array of kMaxModes mode slots. -/
  m_modes : Fin 32 → DisplayXFBMode

namespace DisplayXFBConfiguration

def kMagic : Nat := 0x78464263
def kMaxModes : Nat := 32
def kDefaultRefresh : Nat := 0x003c0000
def kDefaultRowPadding : Nat := 0
def kDefaultFramePadding : Nat := 1024

/-- DisplayXFBConfiguration::isValid. -/
def isValid (c : DisplayXFBConfiguration) : Bool :=
  c.m_magic == kMagic &&
  c.m_refreshRate ≥ kDisplayXFBMinRefresh1616 &&
  c.m_refreshRate ≤ kDisplayXFBMaxRefresh1616 &&
  c.m_modeCount ≤ kMaxModes &&
  c.m_defaultModeIndex < kMaxModes &&
  c.m_name 15 == 0

def rowPadding (c : DisplayXFBConfiguration) : Nat := c.m_rowPadding
def framePadding (c : DisplayXFBConfiguration) : Nat := c.m_framePadding

/-- DisplayXFBConfiguration::modeCount: zero if the structure is invalid. -/
def modeCount (c : DisplayXFBConfiguration) : Nat :=
  if c.isValid then c.m_modeCount else 0

/-- DisplayXFBConfiguration::defaultModeIndex. -/
def defaultModeIndex (c : DisplayXFBConfiguration) : Nat :=
  if c.m_defaultModeIndex < kMaxModes then c.m_defaultModeIndex else 0

/-- DisplayXFBConfiguration::mode(index): `m_modes[index]` for an in-range
index, `m_modes[kMaxModes-1]` otherwise. -/
def mode (c : DisplayXFBConfiguration) (index : Nat) : DisplayXFBMode :=
  if h : index < 32 then c.m_modes ⟨index, h⟩ else c.m_modes ⟨31, by decide⟩

/-- DisplayXFBConfiguration::defaultMode. -/
def defaultMode (c : DisplayXFBConfiguration) : DisplayXFBMode :=
  c.mode c.defaultModeIndex

/-- DisplayXFBConfiguration::makeState(state, modeIndex, offset): returns the
success flag together with the updated state argument. -/
def makeState (c : DisplayXFBConfiguration) (state : DisplayXFBState)
    (modeIndex offset : Nat) : Bool × DisplayXFBState :=
  let s :=
    if modeIndex < c.modeCount then
      state.initialise (c.mode modeIndex) offset c.rowPadding
    else
      state.invalidate
  (s.isValid, s)

end DisplayXFBConfiguration

/-! ## DisplayXFBCursor

The pixel buffer `m_pixelData` is filled in by the external kernel routine
`convertCursorImage` before the modelled code runs and is not interpreted by
any modelled computation, so it is not represented; the remaining fields are
all here. -/

structure DisplayXFBCursor where
  m_magic : Nat
  m_isValid : Nat
  m_isVisible : Nat
  m_x : Int
  m_y : Int
  m_width : Nat
  m_height : Nat
  m_hotspotX : Int
  m_hotspotY : Int
  m_sequenceState : Nat
  m_sequencePixel : Nat
  deriving DecidableEq, Repr

namespace DisplayXFBCursor

def kMagic : Nat := 0x43434246
def kMaxWidth : Nat := 128
def kMaxHeight : Nat := 128

/-- DisplayXFBCursor::initialise(). -/
def initialise : DisplayXFBCursor :=
  { m_magic := kMagic, m_isValid := 0, m_isVisible := 0, m_x := 0, m_y := 0
    m_width := 0, m_height := 0, m_hotspotX := 0, m_hotspotY := 0
    m_sequenceState := 0, m_sequencePixel := 0 }

end DisplayXFBCursor

/-- The outputs that `convertCursorImage` reports back through the
IOHardwareCursorInfo structure on success (the pixel data itself goes
straight to the shared pixel buffer and is not modelled). -/
structure CursorConversion where
  cursorHotSpotX : Int
  cursorHotSpotY : Int
  cursorWidth : Nat
  cursorHeight : Nat
  deriving DecidableEq, Repr

/-! ## DisplayXFBTiming (DisplayXFBTiming.cc) -/

structure DisplayXFBTiming where
  /-- Tick period, in abstime units (modelled as nanoseconds). -/
  m_period : Nat
  /-- Time for next tick, in abstime units. -/
  m_nextTick : Nat
  deriving DecidableEq, Repr

namespace DisplayXFBTiming

/-- DisplayXFBTiming::start(period): period is in microseconds; it is
converted to abstime units (nanoseconds in the model) and the next tick is
scheduled one period after the current uptime `now`. -/
def start (period : Nat) (now : Nat) : DisplayXFBTiming :=
  { m_period := period * 1000, m_nextTick := now + period * 1000 }

/-- DisplayXFBTiming::update(ticks, timeToNextTick) at current uptime `now`.
Returns the updated timer together with the elapsed tick count and the
microseconds to the next tick (the source casts the latter to uint32_t,
hence the `% U32`). -/
def update (t : DisplayXFBTiming) (now : Nat) :
    DisplayXFBTiming × Nat × Nat :=
  let (ticks, nextTick) :=
    if now ≥ t.m_nextTick then
      if t.m_period ≠ 0 then
        let k := (now - t.m_nextTick) / t.m_period + 1
        (k, t.m_nextTick + t.m_period * k)
      else
        (0, now)
    else
      (0, if t.m_nextTick - now > t.m_period then now + 1 else t.m_nextTick)
  let timeToNextTick := ((nextTick - now) / 1000) % U32
  ({ t with m_nextTick := nextTick }, ticks, timeToNextTick)

end DisplayXFBTiming

/-! ## DisplayXFBFramebuffer (DisplayXFBFramebuffer.cc)

Only the fields the modelled user-client operations read or write are
represented.  The vblank work loop, timer event source and interrupt
handlers are external IOKit objects; the calls into them appear as events. -/

structure DisplayXFBFramebuffer where
  m_vramSize : Nat
  m_configuration : DisplayXFBConfiguration
  m_state : DisplayXFBState

namespace DisplayXFBFramebuffer

open DisplayXFBConfiguration DisplayXFBState

/-- One iteration of the mode-check loop in userClientSetConfiguration:
`some err` if the loop returns with error `err` at index `i`, `none` if the
iteration falls through.  The VRAM comparison's sum
`bytesPerFrame() + kFramePadding` is computed, as in the source, in 32-bit
unsigned arithmetic (all three operands are `unsigned`), so it wraps. -/
def checkMode (config : DisplayXFBConfiguration) (vramSize : Nat) (i : Nat) :
    Option IOResult :=
  let mode := config.mode i
  if mode.width < kDisplayXFBMinWidth ∨ mode.height < kDisplayXFBMinHeight then
    some .BadArgument
  else
    let r := config.makeState DisplayXFBState.ctorDefault i 0
    if !r.1 then some .BadArgument
    else if (r.2.bytesPerFrame + kFramePadding) % U32 > vramSize then
      some .NoMemory
    else none

/-- The whole mode-check loop: the first error produced by any index below
`config.modeCount`, if any. -/
def checkModes (config : DisplayXFBConfiguration) (vramSize : Nat) :
    Option IOResult :=
  (List.range config.modeCount).findSome? (checkMode config vramSize)

/-- DisplayXFBFramebuffer::userClientSetConfiguration (the null-pointer
check of the C++ entry point has no counterpart here). -/
def userClientSetConfiguration (fb : DisplayXFBFramebuffer)
    (config : DisplayXFBConfiguration) :
    IOResult × DisplayXFBFramebuffer × List FBEvent :=
  if !config.isValid then (.BadArgument, fb, [])
  else if config.modeCount == 0 then (.BadArgument, fb, [])
  else if fb.m_state.isConnected then (.Busy, fb, [])
  else
    match checkModes config fb.m_vramSize with
    | some err => (err, fb, [])
    | none =>
      (.Success,
       { fb with
         m_configuration := config
         m_state := fb.m_state.setMode config.defaultMode
                      config.defaultModeIndex },
       [])

/-- DisplayXFBFramebuffer::userClientConnect. -/
def userClientConnect (fb : DisplayXFBFramebuffer) :
    IOResult × DisplayXFBFramebuffer × List FBEvent :=
  if fb.m_state.isConnected then (.NotPermitted, fb, [])
  else if !fb.m_configuration.isValid || fb.m_configuration.modeCount == 0 then
    (.UnsupportedMode, fb, [])
  else
    let st := (fb.m_configuration.makeState fb.m_state
                 fb.m_configuration.defaultModeIndex 0).2
    (.Success,
     { fb with m_state := st.setIsConnected true },
     [.vblankEnable true, .connectInterrupt, .notifyDisplayState])

/-- DisplayXFBFramebuffer::userClientDisconnect. -/
def userClientDisconnect (fb : DisplayXFBFramebuffer) :
    IOResult × DisplayXFBFramebuffer × List FBEvent :=
  if fb.m_state.isConnected then
    (.Success,
     { fb with m_state := fb.m_state.setIsConnected false },
     [.vblankEnable false, .notifyDisplayState, .connectInterrupt])
  else
    (.Success, fb, [])

/-- DisplayXFBFramebuffer::setCursorState, acting on the shared cursor
structure. -/
def setCursorState (c : DisplayXFBCursor) (x y : Int) (visible : Bool) :
    IOResult × DisplayXFBCursor × List FBEvent :=
  (.Success,
   { c with m_x := x, m_y := y, m_isVisible := if visible then 1 else 0 },
   [.notifyCursorState])

/-- DisplayXFBFramebuffer::setCursorImage, acting on the shared cursor
structure.  `conv` is the outcome of the external `convertCursorImage`
call: `none` for a conversion failure, `some info` for success. -/
def setCursorImage (c : DisplayXFBCursor) (conv : Option CursorConversion) :
    IOResult × DisplayXFBCursor × List FBEvent :=
  match conv with
  | none => (.Unsupported, { c with m_isValid := 0 }, [])
  | some info =>
    (.Success,
     { c with
       m_hotspotX := info.cursorHotSpotX
       m_hotspotY := info.cursorHotSpotY
       m_width := info.cursorWidth
       m_height := info.cursorHeight
       m_isValid := 1 },
     [.notifyCursorImage])

end DisplayXFBFramebuffer

/-! ## DisplayXFBDriver session pool (DisplayXFBDriver.cc)

`m_clients` is the fixed array of kDisplayXFBMaxClients user-client slots;
a slot holds the client pointer, with 0 (null) meaning "free".  Clients are
identified by a nonzero Nat standing for the pointer value. -/

def DriverClients : Type := Fin 8 → Nat

namespace DisplayXFBDriver

/-- DisplayXFBDriver::handleIsOpen: scan the slots for the client. -/
def handleIsOpen (clients : DriverClients) (forClient : Nat) : Bool :=
  (List.finRange 8).any (fun i => clients i == forClient)

/-- DisplayXFBDriver::handleOpen: reject a null client, reject a duplicate
open, otherwise take the first free slot; fail if all slots are in use. -/
def handleOpen (clients : DriverClients) (forClient : Nat) :
    Bool × DriverClients :=
  if forClient == 0 then (false, clients)
  else if handleIsOpen clients forClient then (false, clients)
  else
    match (List.finRange 8).find? (fun i => clients i == 0) with
    | some i => (true, Function.update clients i forClient)
    | none => (false, clients)

/-- DisplayXFBDriver::handleClose: clear every slot holding the client. -/
def handleClose (clients : DriverClients) (forClient : Nat) : DriverClients :=
  fun i => if forClient == clients i then 0 else clients i

end DisplayXFBDriver

/-! ## Concrete fixtures

Sample values used by the witness and counterexample theorems.  The sample
configuration is the spec's end-to-end scenario: modes {1280x800 default,
1920x1080}, default refresh rate and padding, on a display with the default
32 MiB of VRAM. -/

def sampleModeA : DisplayXFBMode := { m_width := 1280, m_height := 800, m_reserved0 := 0, m_reserved1 := 0 }

def sampleModeB : DisplayXFBMode := { m_width := 1920, m_height := 1080, m_reserved0 := 0, m_reserved1 := 0 }

def sampleConfig : DisplayXFBConfiguration :=
  { m_magic := DisplayXFBConfiguration.kMagic
    m_defaultModeIndex := 0
    m_modeCount := 2
    m_refreshRate := DisplayXFBConfiguration.kDefaultRefresh
    m_rowPadding := 0
    m_framePadding := DisplayXFBConfiguration.kDefaultFramePadding
    m_reserved0 := 0
    m_reserved1 := 0
    m_name := fun _ => 0
    m_modes := fun i =>
      if i = 0 then sampleModeA
      else if i = 1 then sampleModeB
      else DisplayXFBMode.initialiseDefault }

/-- The sample configuration with a corrupted magic number, so that
self-validation fails. -/
def sampleConfigBadMagic : DisplayXFBConfiguration :=
  { sampleConfig with m_magic := 0 }

/-- A valid disconnected display state showing mode 0 of `sampleConfig`. -/
def sampleStateDisconnected : DisplayXFBState :=
  { m_magic := DisplayXFBState.kMagic, m_offset := 0, m_pad := 0
    m_flags := 0, m_modeIndex := 0
    m_reserved0 := 0, m_reserved1 := 0, m_reserved2 := 0
    m_mode := sampleModeA }

/-- The same display state with the connected flag set. -/
def sampleStateConnected : DisplayXFBState :=
  { sampleStateDisconnected with m_flags := DisplayXFBState.kFlagConnected }

def sampleVRAMSize : Nat := 32 * 1024 * 1024

/-- A disconnected display. -/
def sampleFBDisconnected : DisplayXFBFramebuffer :=
  { m_vramSize := sampleVRAMSize
    m_configuration := sampleConfig
    m_state := sampleStateDisconnected }

/-- A connected display. -/
def sampleFBConnected : DisplayXFBFramebuffer :=
  { m_vramSize := sampleVRAMSize
    m_configuration := sampleConfig
    m_state := sampleStateConnected }

/-! ## Helper lemmas -/

namespace DisplayXFBState

theorem isConnected_setIsConnected_true (s : DisplayXFBState) :
    (s.setIsConnected true).isConnected = true := by
  simp only [setIsConnected, isConnected, kFlagConnected, if_pos]
  have h : (s.m_flags ||| 1) &&& 1 = 1 := by simp [Nat.and_one_is_mod]
  simp [h]

theorem isConnected_setIsConnected_false (s : DisplayXFBState) :
    (s.setIsConnected false).isConnected = false := by
  simp only [setIsConnected, isConnected, kFlagConnected, U32]
  have h : (s.m_flags &&& (2 ^ 32 - 1 - 1)) &&& 1 = 0 := by
    rw [Nat.and_assoc]
    norm_num
  simp [h]

end DisplayXFBState

namespace DisplayXFBConfiguration

/-- An invalid configuration reports zero modes, so a nonzero mode count
implies validity. -/
theorem isValid_of_modeCount_ne_zero (c : DisplayXFBConfiguration)
    (h : c.modeCount ≠ 0) : c.isValid = true := by
  cases hval : c.isValid with
  | false => exact absurd (by simp [modeCount, hval]) h
  | true => rfl

end DisplayXFBConfiguration

namespace DisplayXFBFramebuffer

/-- The mode-check loop never reports success: each exit is BadArgument or
NoMemory. -/
theorem checkModes_ne_some_success (config : DisplayXFBConfiguration)
    (vramSize : Nat) : checkModes config vramSize ≠ some .Success := by
  intro h
  obtain ⟨i, _, hi⟩ := List.exists_of_findSome?_eq_some h
  unfold checkMode at hi
  dsimp only at hi
  split_ifs at hi with h1 h2 h3 <;> simp_all

end DisplayXFBFramebuffer

namespace DisplayXFBTiming

/-- Behaviour of `update` when at least one tick has elapsed and the period
is nonzero. -/
theorem update_tick (t : DisplayXFBTiming) (now : Nat)
    (h1 : t.m_nextTick ≤ now) (h2 : t.m_period ≠ 0) :
    t.update now =
      ({ t with m_nextTick := t.m_nextTick +
          t.m_period * ((now - t.m_nextTick) / t.m_period + 1) },
       (now - t.m_nextTick) / t.m_period + 1,
       ((t.m_nextTick + t.m_period * ((now - t.m_nextTick) / t.m_period + 1)
          - now) / 1000) % U32) := by
  unfold update
  simp [ge_iff_le, h1, h2]

/-- Behaviour of `update` on a poll before the next-tick time (with a
consistent clock). -/
theorem update_pretick (t : DisplayXFBTiming) (now : Nat)
    (h1 : now < t.m_nextTick) (h2 : t.m_nextTick - now ≤ t.m_period) :
    t.update now = (t, 0, ((t.m_nextTick - now) / 1000) % U32) := by
  unfold update
  rw [if_neg (by omega), if_neg (by omega)]

/-- Behaviour of `update` when the period is zero but the next-tick time has
passed (the division-by-zero guard). -/
theorem update_zero_period (t : DisplayXFBTiming) (now : Nat)
    (h1 : t.m_nextTick ≤ now) (h2 : t.m_period = 0) :
    t.update now = ({ t with m_nextTick := now }, 0, 0) := by
  unfold update
  simp [ge_iff_le, h1, h2]

/-- Behaviour of `update` when the clock appears to have moved backward
(more than one period remains to the next tick). -/
theorem update_clock_backward (t : DisplayXFBTiming) (now : Nat)
    (h1 : now < t.m_nextTick) (h2 : t.m_period < t.m_nextTick - now) :
    t.update now = ({ t with m_nextTick := now + 1 }, 0, 0) := by
  unfold update
  rw [if_neg (by omega), if_pos (by omega)]
  simp

end DisplayXFBTiming

/-! ## Claim theorems -/

open DisplayXFBFramebuffer DisplayXFBDriver

/-- Claim C8: for every configuration `cfg` and index `idx < cfg.modeCount()`,
`makeState(state, idx)` succeeds, and the resulting state's width and height
are those of the mode at `idx`, and its bytesPerRow is the configuration's
row padding plus 4 times that mode's width (bytes-per-pixel is fixed at 4;
the sum is the code's 32-bit unsigned computation). -/
theorem spec_C8 (cfg : DisplayXFBConfiguration) (s : DisplayXFBState)
    (idx : Nat) (h : idx < cfg.modeCount) :
    (cfg.makeState s idx 0).1 = true ∧
    ((cfg.makeState s idx 0).2).width = (cfg.mode idx).width ∧
    ((cfg.makeState s idx 0).2).height = (cfg.mode idx).height ∧
    ((cfg.makeState s idx 0).2).bytesPerRow =
      (cfg.rowPadding + 4 * (cfg.mode idx).width) % U32 := by
  unfold DisplayXFBConfiguration.makeState
  simp only [if_pos h]
  refine ⟨by simp [DisplayXFBState.initialise, DisplayXFBState.isValid], rfl, rfl, ?_⟩
  simp [DisplayXFBState.initialise, DisplayXFBState.bytesPerRow,
    DisplayXFBState.pad, DisplayXFBState.bytesPerPixel, DisplayXFBState.width,
    DisplayXFBConfiguration.rowPadding]

/-- Claim C8 witness: instantiated on the sample configuration at mode
index 1 (1920x1080 with zero row padding). -/
theorem spec_C8_witness :
    1 < sampleConfig.modeCount ∧
    ((sampleConfig.makeState sampleStateDisconnected 1 0).1 = true ∧
     ((sampleConfig.makeState sampleStateDisconnected 1 0).2).width =
       (sampleConfig.mode 1).width ∧
     ((sampleConfig.makeState sampleStateDisconnected 1 0).2).height =
       (sampleConfig.mode 1).height ∧
     ((sampleConfig.makeState sampleStateDisconnected 1 0).2).bytesPerRow =
       (sampleConfig.rowPadding + 4 * (sampleConfig.mode 1).width) % U32) :=
  ⟨by decide, spec_C8 sampleConfig sampleStateDisconnected 1 (by decide)⟩

/-- Claim C9 (amended): a state produced by `makeState` has every field other
than the stored mode-index field determined by the configuration, the mode
index and the offset alone; the stored mode-index field, however, retains
whatever value the state held before the call (the source's
`DisplayXFBState::initialise` and `invalidate` never write `m_modeIndex`). -/
theorem spec_C9 (cfg : DisplayXFBConfiguration) (s s' : DisplayXFBState)
    (idx off : Nat) :
    ((cfg.makeState s idx off).2).m_modeIndex = s.m_modeIndex ∧
    (cfg.makeState s idx off).2 =
      { (cfg.makeState s' idx off).2 with m_modeIndex := s.m_modeIndex } := by
  unfold DisplayXFBConfiguration.makeState
  by_cases h : idx < cfg.modeCount
  · simp only [if_pos h]
    exact ⟨rfl, rfl⟩
  · simp [if_neg h, DisplayXFBState.invalidate]

/-- Claim C9 counterexample: with the mode index and offset fixed, the states
`makeState` computes from two prior states that differ only in their stored
mode-index field are different: the resulting state is not a function of the
configuration, the mode index and the offset alone, and in particular its
stored mode-index field is inherited, not derived. -/
theorem spec_C9_counterexample :
    ((sampleConfig.makeState
        { sampleStateDisconnected with m_modeIndex := 5 } 0 0).2).m_modeIndex = 5 ∧
    ((sampleConfig.makeState sampleStateDisconnected 0 0).2).m_modeIndex = 0 ∧
    (sampleConfig.makeState
        { sampleStateDisconnected with m_modeIndex := 5 } 0 0).2 ≠
      (sampleConfig.makeState sampleStateDisconnected 0 0).2 := by
  decide

/-- Claim C1 (amended): while a display is connected, `setConfiguration`
never succeeds and always returns the framebuffer unchanged (configuration
and state intact, no signal raised); the outcome is `Busy` when the input
configuration passes self-validation and has at least one mode, and
`BadArgument` otherwise, because the source checks the configuration's
validity before the connected flag. -/
theorem spec_C1 (fb : DisplayXFBFramebuffer)
    (config : DisplayXFBConfiguration)
    (h : fb.m_state.isConnected = true) :
    (userClientSetConfiguration fb config).2.1 = fb ∧
    (userClientSetConfiguration fb config).2.2 = [] ∧
    (userClientSetConfiguration fb config).1 ≠ .Success ∧
    (config.isValid = true → config.modeCount ≠ 0 →
      (userClientSetConfiguration fb config).1 = .Busy) ∧
    (config.isValid = false ∨ config.modeCount = 0 →
      (userClientSetConfiguration fb config).1 = .BadArgument) := by
  unfold DisplayXFBFramebuffer.userClientSetConfiguration
  cases hv : config.isValid with
  | false => simp [hv]
  | true =>
    by_cases hm : config.modeCount = 0
    · simp [hv, hm]
    · simp [hv, hm, h]

/-- Claim C1 witness: a Busy rejection on the sample connected display given
the sample (valid, two-mode) configuration. -/
theorem spec_C1_witness :
    sampleFBConnected.m_state.isConnected = true ∧
    sampleConfig.isValid = true ∧ sampleConfig.modeCount ≠ 0 ∧
    (userClientSetConfiguration sampleFBConnected sampleConfig).2.1 =
      sampleFBConnected ∧
    (userClientSetConfiguration sampleFBConnected sampleConfig).1 = .Busy :=
  ⟨by decide, by decide, by decide,
   (spec_C1 sampleFBConnected sampleConfig (by decide)).1,
   (spec_C1 sampleFBConnected sampleConfig (by decide)).2.2.2.1
     (by decide) (by decide)⟩

/-- Claim C1 counterexample: on a connected display, `setConfiguration` with
a configuration whose magic number is corrupt returns BadArgument, not Busy,
so the claim's "returns Busy for every input configuration" is false. -/
theorem spec_C1_counterexample :
    sampleFBConnected.m_state.isConnected = true ∧
    (userClientSetConfiguration sampleFBConnected sampleConfigBadMagic).1 =
      .BadArgument ∧
    (userClientSetConfiguration sampleFBConnected sampleConfigBadMagic).1 ≠
      .Busy := by
  decide

/-- Claim C2: `connect()` on a connected display returns NotPermitted and
changes nothing; on a disconnected display with a zero-mode (or invalid,
which reports zero modes) configuration it returns UnsupportedMode and
changes nothing; otherwise it recomputes the state from the configuration's
default mode, sets the connected flag, raises the vblank-start, connect
interrupt and display-state signals, and succeeds — after which a second
`connect()` returns NotPermitted. -/
theorem spec_C2 (fb : DisplayXFBFramebuffer) :
    (fb.m_state.isConnected = true →
      userClientConnect fb = (.NotPermitted, fb, [])) ∧
    (fb.m_state.isConnected = false → fb.m_configuration.modeCount = 0 →
      userClientConnect fb = (.UnsupportedMode, fb, [])) ∧
    (fb.m_state.isConnected = false → fb.m_configuration.modeCount ≠ 0 →
      userClientConnect fb =
        (.Success,
         { fb with m_state := ((fb.m_configuration.makeState fb.m_state
              fb.m_configuration.defaultModeIndex 0).2).setIsConnected true },
         [.vblankEnable true, .connectInterrupt, .notifyDisplayState]) ∧
      ((userClientConnect fb).2.1).m_state.isConnected = true ∧
      (userClientConnect (userClientConnect fb).2.1).1 = .NotPermitted) := by
  refine ⟨?_, ?_, ?_⟩
  · intro h
    unfold DisplayXFBFramebuffer.userClientConnect
    simp [h]
  · intro h hm
    unfold DisplayXFBFramebuffer.userClientConnect
    simp [h, hm]
  · intro h hm
    have hv := DisplayXFBConfiguration.isValid_of_modeCount_ne_zero _ hm
    have heq : userClientConnect fb =
        (.Success,
         { fb with m_state := ((fb.m_configuration.makeState fb.m_state
              fb.m_configuration.defaultModeIndex 0).2).setIsConnected true },
         [.vblankEnable true, .connectInterrupt, .notifyDisplayState]) := by
      unfold DisplayXFBFramebuffer.userClientConnect
      simp [h, hm, hv]
    refine ⟨heq, ?_, ?_⟩
    · rw [heq]
      exact DisplayXFBState.isConnected_setIsConnected_true _
    · rw [heq]
      unfold DisplayXFBFramebuffer.userClientConnect
      simp [DisplayXFBState.isConnected_setIsConnected_true]

/-- Claim C2 witness: a successful connect on the sample disconnected
display, with the connected flag set afterwards and a second connect
rejected with NotPermitted. -/
theorem spec_C2_witness :
    sampleFBDisconnected.m_state.isConnected = false ∧
    sampleFBDisconnected.m_configuration.modeCount ≠ 0 ∧
    (userClientConnect sampleFBDisconnected =
       (.Success,
        { sampleFBDisconnected with
          m_state := ((sampleFBDisconnected.m_configuration.makeState
              sampleFBDisconnected.m_state
              sampleFBDisconnected.m_configuration.defaultModeIndex
              0).2).setIsConnected true },
        [.vblankEnable true, .connectInterrupt, .notifyDisplayState]) ∧
     ((userClientConnect sampleFBDisconnected).2.1).m_state.isConnected =
       true ∧
     (userClientConnect
        (userClientConnect sampleFBDisconnected).2.1).1 = .NotPermitted) :=
  ⟨by decide, by decide,
   (spec_C2 sampleFBDisconnected).2.2 (by decide) (by decide)⟩

/-- Claim C7 (amended): a configuration is accepted by `setConfiguration`
only if, for every mode, the 32-bit unsigned sum of the computed
bytes-per-frame and the fixed frame padding — the wrapped value
`(bytesPerFrame + kFramePadding) mod 2^32` that the source actually
compares — fits the display's allocated VRAM (the accepted configuration
becomes the stored one), and any rejected call leaves the framebuffer
unchanged.  The unwrapped sum is not bounded: the comparison overflows, so
a mode whose frame wraps past 2^32 can be accepted. -/
theorem spec_C7 (fb : DisplayXFBFramebuffer)
    (config : DisplayXFBConfiguration) :
    ((userClientSetConfiguration fb config).1 = .Success →
      (∀ i, i < config.modeCount →
        (((config.makeState DisplayXFBState.ctorDefault i 0).2).bytesPerFrame
          + kFramePadding) % U32 ≤ fb.m_vramSize) ∧
      ((userClientSetConfiguration fb config).2.1).m_configuration =
        config) ∧
    ((userClientSetConfiguration fb config).1 ≠ .Success →
      (userClientSetConfiguration fb config).2.1 = fb) := by
  unfold DisplayXFBFramebuffer.userClientSetConfiguration
  split_ifs with h1 h2 h3
  · simp
  · simp
  · simp
  · cases hc : checkModes config fb.m_vramSize with
    | some err =>
      have hne : err ≠ .Success := by
        intro hs
        rw [hs] at hc
        exact checkModes_ne_some_success config fb.m_vramSize hc
      simp [hc, hne]
    | none =>
      simp only [hc]
      refine ⟨fun _ => ⟨?_, trivial⟩, fun hne => absurd rfl hne⟩
      intro i hi
      have hnone := (List.findSome?_eq_none_iff.mp hc) i (List.mem_range.mpr hi)
      unfold checkMode at hnone
      dsimp only at hnone
      split_ifs at hnone with ha hb hcc
      omega

/-- Claim C7 witness: the sample two-mode configuration is accepted on the
sample disconnected display, and both modes fit the 32 MiB VRAM with the
fixed padding. -/
theorem spec_C7_witness :
    (userClientSetConfiguration sampleFBDisconnected sampleConfig).1 =
      .Success ∧
    (∀ i, i < sampleConfig.modeCount →
      (((sampleConfig.makeState DisplayXFBState.ctorDefault i
          0).2).bytesPerFrame + kFramePadding) % U32 ≤
        sampleFBDisconnected.m_vramSize) ∧
    ((userClientSetConfiguration sampleFBDisconnected
        sampleConfig).2.1).m_configuration = sampleConfig :=
  ⟨by decide,
   ((spec_C7 sampleFBDisconnected sampleConfig).1 (by decide)).1,
   ((spec_C7 sampleFBDisconnected sampleConfig).1 (by decide)).2⟩

/-- A self-valid single-mode configuration engineered so that the mode's
32-bit bytes-per-frame computation lands on 2^32 - 512: width 320 and
height 225 pass the minimum-size checks, and the row padding makes
bytesPerRow = 897170944, whose product with the height wraps mod 2^32.
The source's VRAM check then compares the wrapped sum
(2^32 - 512 + 1024) mod 2^32 = 512 against the VRAM size and accepts. -/
def sampleConfigOverflow : DisplayXFBConfiguration :=
  { sampleConfig with
    m_modeCount := 1
    m_rowPadding := 897169664
    m_modes := fun i =>
      if i = 0 then { m_width := 320, m_height := 225,
                      m_reserved0 := 0, m_reserved1 := 0 }
      else DisplayXFBMode.initialiseDefault }

/-- Claim C7 counterexample: `setConfiguration` accepts the overflow
configuration on the sample display, yet its only mode's computed
bytes-per-frame plus the fixed frame padding (2^32 + 512, taken without the
32-bit wrap of the source's comparison) exceeds the display's 32 MiB of
allocated VRAM — so the claimed bound is false of the program. -/
theorem spec_C7_counterexample :
    (userClientSetConfiguration sampleFBDisconnected sampleConfigOverflow).1 =
      .Success ∧
    0 < sampleConfigOverflow.modeCount ∧
    ((sampleConfigOverflow.makeState DisplayXFBState.ctorDefault
        0 0).2).bytesPerFrame + kFramePadding >
      sampleFBDisconnected.m_vramSize := by
  decide

/-- Claim C3: `disconnect()` on a display whose connected flag is clear
returns success and is a true no-op: the framebuffer (state and
configuration) is returned unchanged and no signal of any kind is raised
(no vblank emulator call, no notification, no connect interrupt). -/
theorem spec_C3 (fb : DisplayXFBFramebuffer)
    (h : fb.m_state.isConnected = false) :
    userClientDisconnect fb = (.Success, fb, []) := by
  unfold DisplayXFBFramebuffer.userClientDisconnect
  simp [h]

/-- Claim C3 witness: instantiated on the sample disconnected display. -/
theorem spec_C3_witness :
    sampleFBDisconnected.m_state.isConnected = false ∧
    userClientDisconnect sampleFBDisconnected =
      (.Success, sampleFBDisconnected, []) :=
  ⟨by decide, spec_C3 sampleFBDisconnected (by decide)⟩

/-- Claim C4 (amended): after `start(P)` with `P > 0`, a poll taken when
exactly `N ≥ 1` whole periods have elapsed reports `ticksElapsed = N`
(uncapped) and `microsecondsToNextTick = P` — exactly one full period, the
boundary value of `(0, P]`, not a value in `[0, P)`; a poll taken before the
next-tick time reports zero elapsed ticks and the remaining time. -/
theorem spec_C4 (P t0 N d : Nat) (hP : 0 < P) (hP32 : P < U32) :
    (1 ≤ N →
      (DisplayXFBTiming.start P t0).update (t0 + N * (P * 1000)) =
        ({ m_period := P * 1000, m_nextTick := t0 + P * 1000 + P * 1000 * N },
         N, P)) ∧
    (d < P * 1000 →
      (DisplayXFBTiming.start P t0).update (t0 + d) =
        ({ m_period := P * 1000, m_nextTick := t0 + P * 1000 }, 0,
         (P * 1000 - d) / 1000)) := by
  have hs : DisplayXFBTiming.start P t0 =
      { m_period := P * 1000, m_nextTick := t0 + P * 1000 } := rfl
  have hQ : 0 < P * 1000 := by omega
  constructor
  · intro hN
    rw [hs]
    have h1 : ({ m_period := P * 1000, m_nextTick := t0 + P * 1000 } :
        DisplayXFBTiming).m_nextTick ≤ t0 + N * (P * 1000) := by
      have hm : P * 1000 ≤ N * (P * 1000) := by
        calc P * 1000 = 1 * (P * 1000) := by omega
        _ ≤ N * (P * 1000) := Nat.mul_le_mul_right _ hN
      dsimp only
      omega
    have h2 : ({ m_period := P * 1000, m_nextTick := t0 + P * 1000 } :
        DisplayXFBTiming).m_period ≠ 0 := by
      dsimp only
      omega
    rw [DisplayXFBTiming.update_tick _ _ h1 h2]
    dsimp only
    have key : (t0 + N * (P * 1000) - (t0 + P * 1000)) / (P * 1000) + 1 = N := by
      have e1 : t0 + N * (P * 1000) - (t0 + P * 1000) = (N - 1) * (P * 1000) := by
        rw [Nat.sub_one_mul]
        omega
      rw [e1, Nat.mul_div_cancel _ hQ]
      omega
    rw [key]
    have e2 : t0 + P * 1000 + P * 1000 * N - (t0 + N * (P * 1000)) =
        P * 1000 := by
      rw [Nat.mul_comm (P * 1000) N]
      omega
    rw [e2, Nat.mul_div_cancel P (by norm_num : (0:Nat) < 1000),
      Nat.mod_eq_of_lt hP32]
  · intro hd
    rw [hs]
    have h1 : t0 + d < ({ m_period := P * 1000, m_nextTick := t0 + P * 1000 } :
        DisplayXFBTiming).m_nextTick := by
      dsimp only
      omega
    have h2 : ({ m_period := P * 1000, m_nextTick := t0 + P * 1000 } :
        DisplayXFBTiming).m_nextTick - (t0 + d) ≤
        ({ m_period := P * 1000, m_nextTick := t0 + P * 1000 } :
        DisplayXFBTiming).m_period := by
      dsimp only
      omega
    rw [DisplayXFBTiming.update_pretick _ _ h1 h2]
    dsimp only
    have e3 : t0 + P * 1000 - (t0 + d) = P * 1000 - d := by omega
    rw [e3]
    have hlt : (P * 1000 - d) / 1000 < U32 := by
      have hle : (P * 1000 - d) / 1000 ≤ P * 1000 / 1000 :=
        Nat.div_le_div_right (by omega)
      rw [Nat.mul_div_cancel P (by norm_num : (0:Nat) < 1000)] at hle
      omega
    rw [Nat.mod_eq_of_lt hlt]

/-- Claim C4 witness: period 1000 us, three whole periods elapsed reports 3
ticks and exactly 1000 us to the next tick; a poll 999 us into the first
period reports zero ticks and the remaining time. -/
theorem spec_C4_witness :
    ((0:Nat) < 1000 ∧ 1000 < U32 ∧ (1:Nat) ≤ 3 ∧ (999:Nat) < 1000 * 1000) ∧
    (DisplayXFBTiming.start 1000 5).update (5 + 3 * (1000 * 1000)) =
      ({ m_period := 1000 * 1000,
         m_nextTick := 5 + 1000 * 1000 + 1000 * 1000 * 3 }, 3, 1000) ∧
    (DisplayXFBTiming.start 1000 5).update (5 + 999) =
      ({ m_period := 1000 * 1000, m_nextTick := 5 + 1000 * 1000 }, 0,
       (1000 * 1000 - 999) / 1000) :=
  ⟨⟨by decide, by decide, by decide, by decide⟩,
   (spec_C4 1000 5 3 999 (by decide) (by decide)).1 (by decide),
   (spec_C4 1000 5 3 999 (by decide) (by decide)).2 (by decide)⟩

/-- Claim C4 counterexample: with period 1000 us started at time 0, a poll
after exactly one whole period reports 1 elapsed tick but 1000 us to the
next tick, which is not within [0, 1000). -/
theorem spec_C4_counterexample :
    ((DisplayXFBTiming.start 1000 0).update 1000000).2.1 = 1 ∧
    ((DisplayXFBTiming.start 1000 0).update 1000000).2.2 = 1000 ∧
    ¬ ((DisplayXFBTiming.start 1000 0).update 1000000).2.2 < 1000 := by
  decide

/-- Claim C5 (amended): `update` clamps both defensive anomalies instead of
propagating an error: with a zero stored period and the next-tick time
passed it reports zero ticks and resets the next-tick time to the current
time; and when the clock appears to have moved backward (time remaining
exceeds one period) it reports zero ticks and resets the next-tick time to
one clock unit (not one tick period) after the current time. -/
theorem spec_C5 (t : DisplayXFBTiming) (now : Nat) :
    (t.m_period = 0 → t.m_nextTick ≤ now →
      t.update now = ({ t with m_nextTick := now }, 0, 0)) ∧
    (now < t.m_nextTick → t.m_period < t.m_nextTick - now →
      t.update now = ({ t with m_nextTick := now + 1 }, 0, 0)) :=
  ⟨fun h2 h1 => DisplayXFBTiming.update_zero_period t now h1 h2,
   fun h1 h2 => DisplayXFBTiming.update_clock_backward t now h1 h2⟩

/-- Claim C5 witness: a zero-period timer polled past its next-tick time
resets to the poll time with zero ticks; a timer whose next tick is more
than one period away resets to one clock unit after the poll time. -/
theorem spec_C5_witness :
    (({ m_period := 0, m_nextTick := 50 } : DisplayXFBTiming).m_period = 0 ∧
     ({ m_period := 0, m_nextTick := 50 } : DisplayXFBTiming).m_nextTick ≤ 100 ∧
     ({ m_period := 0, m_nextTick := 50 } : DisplayXFBTiming).update 100 =
       ({ m_period := 0, m_nextTick := 100 }, 0, 0)) ∧
    ((1000000 : Nat) < 5000000 ∧
     ({ m_period := 1000000, m_nextTick := 5000000 } :
       DisplayXFBTiming).update 1000000 =
       ({ m_period := 1000000, m_nextTick := 1000001 }, 0, 0)) :=
  ⟨⟨by decide, by decide,
    (spec_C5 { m_period := 0, m_nextTick := 50 } 100).1 (by decide) (by decide)⟩,
   ⟨by decide,
    (spec_C5 { m_period := 1000000, m_nextTick := 5000000 } 1000000).2
      (by decide) (by decide)⟩⟩

/-- Claim C5 counterexample: with period 1000000 and next tick at 5000000, a
poll at time 1000000 (clock apparently moved backward) resets the next-tick
time to 1000001 — one clock unit after now — and not to one tick period from
the current time (2000000). -/
theorem spec_C5_counterexample :
    (({ m_period := 1000000, m_nextTick := 5000000 } :
        DisplayXFBTiming).update 1000000).1.m_nextTick = 1000001 ∧
    (({ m_period := 1000000, m_nextTick := 5000000 } :
        DisplayXFBTiming).update 1000000).1.m_nextTick ≠ 1000000 + 1000000 := by
  decide

/-- Claim C6 (code bug): a successful `setCursorState` call leaves the
cursor's position/visibility sequence counter unchanged, and a successful
`setCursorImage` call leaves the pixel-data sequence counter unchanged — the
source never increments `m_sequenceState` or `m_sequencePixel` anywhere,
although the fields are documented as counters incremented on the
corresponding updates. -/
theorem spec_C6_bug :
    (setCursorState DisplayXFBCursor.initialise 10 20 true).1 = .Success ∧
    ((setCursorState DisplayXFBCursor.initialise 10 20
        true).2.1).m_sequenceState = 0 ∧
    (setCursorImage DisplayXFBCursor.initialise
       (some { cursorHotSpotX := 3, cursorHotSpotY := 4,
               cursorWidth := 16, cursorHeight := 16 })).1 = .Success ∧
    ((setCursorImage DisplayXFBCursor.initialise
       (some { cursorHotSpotX := 3, cursorHotSpotY := 4,
               cursorWidth := 16, cursorHeight := 16 })).2.1).m_sequencePixel
      = 0 := by
  decide

/-- A fully occupied client pool: all 8 slots hold nonzero clients. -/
def sampleClientsFull : DriverClients := fun i => i.val + 1

/-- A pool with slots 0-2 occupied and slots 3-7 free. -/
def sampleClientsFree : DriverClients :=
  fun i => if i.val < 3 then i.val + 1 else 0

/-- Claim C10: when every client slot is occupied, `handleOpen` fails and
leaves all slots (the registered sessions) untouched; when a free slot
exists and the (non-null) caller is not already registered, `handleOpen`
registers the caller in a previously free slot, leaves every other slot
unchanged, and succeeds. -/
theorem spec_C10 (clients : DriverClients) (c : Nat) :
    ((∀ i, clients i ≠ 0) → handleOpen clients c = (false, clients)) ∧
    (c ≠ 0 → handleIsOpen clients c = false → (∃ i, clients i = 0) →
      ∃ j, clients j = 0 ∧
        handleOpen clients c = (true, Function.update clients j c)) := by
  constructor
  · intro hfull
    unfold DisplayXFBDriver.handleOpen
    by_cases hc : c = 0
    · simp [hc]
    · by_cases hopen : handleIsOpen clients c = true
      · simp [hc, hopen]
      · have hfind : (List.finRange 8).find? (fun i => clients i == 0) =
            none := by
          apply List.find?_eq_none.mpr
          intro i _
          simp [hfull i]
        simp [hc, hopen, hfind]
  · intro hc hopen hex
    cases hfind : (List.finRange 8).find? (fun i => clients i == 0) with
    | none =>
      exfalso
      obtain ⟨i, hi⟩ := hex
      have hnot := List.find?_eq_none.mp hfind i (List.mem_finRange i)
      simp [hi] at hnot
    | some j =>
      refine ⟨j, ?_, ?_⟩
      · have hj := List.find?_some hfind
        simpa using hj
      · unfold DisplayXFBDriver.handleOpen
        simp [hc, hopen, hfind]

/-- Claim C10 witness: with all 8 slots occupied, opening client 99 fails
with the pool unchanged; with slots 3-7 free and client 99 not yet
registered, opening registers 99 in a free slot and succeeds. -/
theorem spec_C10_witness :
    ((∀ i, sampleClientsFull i ≠ 0) ∧
     handleOpen sampleClientsFull 99 = (false, sampleClientsFull)) ∧
    ((99 : Nat) ≠ 0 ∧ handleIsOpen sampleClientsFree 99 = false ∧
     (∃ i, sampleClientsFree i = 0) ∧
     ∃ j, sampleClientsFree j = 0 ∧
       handleOpen sampleClientsFree 99 =
         (true, Function.update sampleClientsFree j 99)) :=
  ⟨⟨by decide, (spec_C10 sampleClientsFull 99).1 (by decide)⟩,
   ⟨by decide, by decide, by decide,
    (spec_C10 sampleClientsFree 99).2 (by decide) (by decide) (by decide)⟩⟩

end DisplayX
